import Mathlib

/-!
# Verification of the deriverse-analytics core engines

Shallow embedding of the analytics core (performance, trade-behavior,
time, fee and risk engines) of the deriverse-analytics dashboard, and
proofs of the behavioral claims about it.

Modelling conventions:
* JavaScript numbers are modelled as exact rationals (`ℚ`); the few
  quantities that require a square root (return volatility, Sharpe
  ratio) live in `ℝ` with `Real.sqrt`.
* `Array.prototype.sort` with a numeric comparator is stable in
  JavaScript; it is modelled by `List.insertionSort` with the
  corresponding non-strict relation, which computes the same stable
  permutation.
* A JavaScript `Map` preserves key insertion order; grouping through a
  `Map` is modelled by an association list built by a left fold
  (`addToGroups` below), which appends a fresh key at the end and
  appends a value to an existing group in place.
* `Infinity` (the value of the profit factor when there are no losses)
  is modelled by a dedicated constructor of the `ProfitFactor` type.
* `Date.now()` is passed explicitly as a `now` argument where its value
  can reach the result (the spec's §9 asks for an injectable reference
  time); where it is unreachable it is instantiated with `0`.
-/

namespace Deriverse

/-- Trade side (`'long' | 'short'`). -/
inductive Side
  | long
  | short
deriving DecidableEq

/-- Trade outcome (`'win' | 'loss'`). -/
inductive Outcome
  | win
  | loss
deriving DecidableEq

/-- Order type (`'market' | 'limit' | 'stop'`). -/
inductive OrderType
  | market
  | limit
  | stop
deriving DecidableEq

/-- A single closed trade record (interface `Trade` in `models/types.ts`).
Timestamps and durations are in milliseconds. -/
structure Trade where
  id : String
  timestamp : ℚ
  symbol : String
  side : Side
  entryPrice : ℚ
  exitPrice : ℚ
  quantity : ℚ
  leverage : Option ℚ
  pnl : ℚ
  pnlPercentage : ℚ
  fees : ℚ
  netPnl : ℚ
  orderType : OrderType
  duration : ℚ
  outcome : Outcome
  volume : ℚ
  makerFee : Option ℚ
  takerFee : Option ℚ
  notes : Option String
  tags : List String
deriving DecidableEq

/-- Model of `[...trades].sort((a, b) => a.timestamp - b.timestamp)`: stable sort
by ascending timestamp. -/
def sortByTimestamp (trades : List Trade) : List Trade :=
  trades.insertionSort (fun a b => a.timestamp ≤ b.timestamp)

/-! ## Risk engine (`core/riskEngine.ts`) -/

/-- Result record of `analyzeConsecutiveLosses`. -/
structure ConsecutiveLossStats where
  currentConsecutiveLosses : ℕ
  maxConsecutiveLosses : ℕ
deriving DecidableEq

/-- The body of the `for (let i = length - 1; i >= 0; i--)` loop of
`analyzeConsecutiveLosses`, traversing the reversed chronological list;
`isLast` is true exactly on the first processed element (the trade with
index `length - 1`), which is the only place the source touches
`currentConsecutiveLosses`. -/
def consecutiveLossLoop (isLast : Bool) (current maxStreak tempStreak : ℕ) :
    List Trade → ConsecutiveLossStats
  | [] => ⟨current, maxStreak⟩
  | t :: ts =>
    if t.outcome = Outcome.loss then
      let current' := if isLast then current + 1 else current
      let tempStreak' := tempStreak + 1
      consecutiveLossLoop false current' (max maxStreak tempStreak') tempStreak' ts
    else
      let current' := if isLast then 0 else current
      consecutiveLossLoop false current' maxStreak 0 ts

/-- Model of `analyzeConsecutiveLosses(trades)`. -/
def analyzeConsecutiveLosses (trades : List Trade) : ConsecutiveLossStats :=
  if trades.isEmpty then ⟨0, 0⟩
  else consecutiveLossLoop true 0 0 0 (sortByTimestamp trades).reverse

/-- Sum of the inter-trade timestamp gaps
(`for (let i = 1; i < n; i++) total += ts[i] - ts[i-1]`). -/
def timeGapsSum (l : List Trade) : ℚ :=
  ((l.zip l.tail).map (fun p => p.2.timestamp - p.1.timestamp)).sum

/-- Model of `detectOvertrading(trades)`: requires at least 10 trades, looks at the
last 30 chronological trades (`slice(-30)` is modelled by dropping
`length - 30` elements), and flags when both the average inter-trade gap
is under 30 minutes and the average duration is under 1 hour. -/
def detectOvertrading (trades : List Trade) : Bool :=
  if trades.length < 10 then false
  else
    let sortedTrades := sortByTimestamp trades
    let recentTrades := sortedTrades.drop (sortedTrades.length - 30)
    if recentTrades.length < 10 then false
    else
      let avgTimeBetween := timeGapsSum recentTrades / ((recentTrades.length : ℚ) - 1)
      let avgDuration := ((recentTrades.map Trade.duration).sum) / (recentTrades.length : ℚ)
      decide (avgTimeBetween < 30 * 60 * 1000) && decide (avgDuration < 60 * 60 * 1000)

/-- The loop of `calculateMaxDrawdownPercentage`: accumulate net PnL into
`runningEquity`, track the running `peak`, and take the maximum of the
percentage drawdowns (`0` whenever the current peak is not positive). -/
def maxDrawdownLoop (peak maxDrawdown runningEquity : ℚ) : List Trade → ℚ
  | [] => maxDrawdown
  | t :: ts =>
    let runningEquity' := runningEquity + t.netPnl
    let peak' := if runningEquity' > peak then runningEquity' else peak
    let drawdown := if peak' > 0 then ((peak' - runningEquity') / peak') * 100 else 0
    maxDrawdownLoop peak' (max maxDrawdown drawdown) runningEquity' ts

/-- Model of `calculateMaxDrawdownPercentage(trades, initialCapital)` (private
helper of the risk engine; its caller passes already-sorted trades). -/
def calculateMaxDrawdownPercentage (trades : List Trade) (initialCapital : ℚ) : ℚ :=
  if trades.isEmpty then 0
  else maxDrawdownLoop initialCapital 0 initialCapital trades

/-- Model of `calculateReturnVolatility(trades)`: population standard deviation of
the `pnlPercentage` values. -/
noncomputable def calculateReturnVolatility (trades : List Trade) : ℝ :=
  if trades.isEmpty then 0
  else
    let returns : List ℝ := trades.map (fun t => (t.pnlPercentage : ℝ))
    let mean := returns.sum / (returns.length : ℝ)
    let variance := (returns.map (fun r => (r - mean) ^ 2)).sum / (returns.length : ℝ)
    Real.sqrt variance

/-- Model of `scorePerformanceConsistency(trades)`: same computation as
`calculateReturnVolatility`, exposed publicly. -/
noncomputable def scorePerformanceConsistency (trades : List Trade) : ℝ :=
  if trades.isEmpty then 0
  else
    let returns : List ℝ := trades.map (fun t => (t.pnlPercentage : ℝ))
    let mean := returns.sum / (returns.length : ℝ)
    let variance := (returns.map (fun r => (r - mean) ^ 2)).sum / (returns.length : ℝ)
    Real.sqrt variance

/-- Factor 1 of the risk score: `min(maxDrawdownPct * 1.5, 30)`. -/
noncomputable def drawdownFactor (sortedTrades : List Trade) (totalEquity : ℚ) : ℝ :=
  min ((calculateMaxDrawdownPercentage sortedTrades totalEquity : ℝ) * 1.5) 30

/-- Factor 2 of the risk score: `min(maxConsecutiveLosses * 5, 25)`. -/
def streakFactor (sortedTrades : List Trade) : ℝ :=
  min (((analyzeConsecutiveLosses sortedTrades).maxConsecutiveLosses : ℝ) * 5) 25

/-- Factor 3 of the risk score: `min(volatility * 2.5, 25)`. -/
noncomputable def volatilityFactor (sortedTrades : List Trade) : ℝ :=
  min (calculateReturnVolatility sortedTrades * 2.5) 25

/-- Factor 4 of the risk score: `20` when overtrading is detected, else `0`. -/
def overtradingFactor (sortedTrades : List Trade) : ℝ :=
  if detectOvertrading sortedTrades then 20 else 0

/-- Model of `calculateRiskScore(trades, portfolio)`: the four factors summed, then
`Math.round` (round half toward positive infinity, which is Mathlib's
`round`) and clamped from above by 100.  The `portfolio` argument is
represented by its only used field `totalEquity`. -/
noncomputable def calculateRiskScore (trades : List Trade) (totalEquity : ℚ) : ℤ :=
  if trades.isEmpty then 0
  else
    let sortedTrades := sortByTimestamp trades
    let totalScore := drawdownFactor sortedTrades totalEquity + streakFactor sortedTrades
      + volatilityFactor sortedTrades + overtradingFactor sortedTrades
    min (round totalScore) 100

/-- Cluster pattern tag of `TradeCluster`. -/
inductive ClusterPattern
  | winningStreak
  | losingStreak
  | choppy
  | normal
deriving DecidableEq

/-- The `TradeCluster` value object. -/
structure TradeCluster where
  startTime : ℚ
  endTime : ℚ
  tradeCount : ℕ
  avgPnl : ℚ
  pattern : ClusterPattern
deriving DecidableEq

/-- Model of `analyzeCluster(trades)`: summarize one cluster.  The source indexes
`trades[0]` and `trades[trades.length - 1]` directly; every call site
guarantees at least 3 trades, so the `getD` defaults are unreachable. -/
def analyzeCluster (trades : List Trade) : TradeCluster :=
  let startTime := ((trades.head?).map Trade.timestamp).getD 0
  let endTime := ((trades.getLast?).map Trade.timestamp).getD 0
  let avgPnl := (trades.map Trade.pnl).sum / (trades.length : ℚ)
  let wins := (trades.filter (fun t => decide (t.outcome = Outcome.win))).length
  let losses := (trades.filter (fun t => decide (t.outcome = Outcome.loss))).length
  let pattern :=
    if (wins : ℚ) ≥ (trades.length : ℚ) * (7 / 10) then ClusterPattern.winningStreak
    else if (losses : ℚ) ≥ (trades.length : ℚ) * (7 / 10) then ClusterPattern.losingStreak
    else if |avgPnl| < 10 then ClusterPattern.choppy
    else ClusterPattern.normal
  ⟨startTime, endTime, trades.length, avgPnl, pattern⟩

/-- The fixed 2-hour cluster window, in milliseconds. -/
def clusterWindow : ℚ := 2 * 60 * 60 * 1000

/-- The grouping loop of `analyzeTradeClusterPatterns`: extend the current
cluster while the gap to the previous trade is within the window,
otherwise emit it (when it has at least 3 trades) and restart. -/
def clusterLoop (prev : Trade) (currentCluster : List Trade) :
    List Trade → List TradeCluster
  | [] => if 3 ≤ currentCluster.length then [analyzeCluster currentCluster] else []
  | t :: ts =>
    if t.timestamp - prev.timestamp ≤ clusterWindow then
      clusterLoop t (currentCluster ++ [t]) ts
    else
      (if 3 ≤ currentCluster.length then [analyzeCluster currentCluster] else [])
        ++ clusterLoop t [t] ts

/-- Model of `analyzeTradeClusterPatterns(trades)`: returns `[]` outright for fewer
than 5 trades. -/
def analyzeTradeClusterPatterns (trades : List Trade) : List TradeCluster :=
  if trades.length < 5 then []
  else
    match sortByTimestamp trades with
    | [] => []
    | t :: ts => clusterLoop t [t] ts

/-- The `RiskMetrics` bundle returned by `getRiskMetrics`. -/
structure RiskMetrics where
  riskScore : ℤ
  consecutiveLosses : ℕ
  maxConsecutiveLosses : ℕ
  overtradingFlag : Bool
  performanceConsistency : ℝ
  avgDailyTrades : ℚ

/-- Model of `getRiskMetrics(trades, portfolio)`. -/
noncomputable def getRiskMetrics (trades : List Trade) (totalEquity : ℚ) : RiskMetrics :=
  let lossMetrics := analyzeConsecutiveLosses trades
  let sortedTrades := sortByTimestamp trades
  let daysSpan : ℚ :=
    if 0 < trades.length then
      (((sortedTrades.getLast?).map Trade.timestamp).getD 0
        - ((sortedTrades.head?).map Trade.timestamp).getD 0) / (1000 * 60 * 60 * 24)
    else 1
  let avgDailyTrades := if daysSpan > 0 then (trades.length : ℚ) / daysSpan else (trades.length : ℚ)
  { riskScore := calculateRiskScore trades totalEquity
    consecutiveLosses := lossMetrics.currentConsecutiveLosses
    maxConsecutiveLosses := lossMetrics.maxConsecutiveLosses
    overtradingFlag := detectOvertrading trades
    performanceConsistency := scorePerformanceConsistency trades
    avgDailyTrades := avgDailyTrades }

/-! ## Performance engine (`core/performanceEngine.ts`) -/

/-- A `TimeSeriesPoint`. -/
structure TimeSeriesPoint where
  timestamp : ℚ
  value : ℚ
deriving DecidableEq

/-- The `EquityCurveData` bundle. -/
structure EquityCurveData where
  equity : List TimeSeriesPoint
  drawdown : List TimeSeriesPoint
  peak : ℚ
  valley : ℚ
deriving DecidableEq

/-- The accumulation loop of `calculateEquityCurve`: one point per trade,
each adding that trade's net PnL to the running equity. -/
def equityPointsLoop (runningEquity : ℚ) : List Trade → List TimeSeriesPoint
  | [] => []
  | t :: ts =>
    let runningEquity' := runningEquity + t.netPnl
    ⟨t.timestamp, runningEquity'⟩ :: equityPointsLoop runningEquity' ts

/-- The drawdown-series loop of `calculateEquityCurve`: running peak and
percentage drawdown per point (`0` when the peak is not positive). -/
def drawdownSeriesLoop (peak : ℚ) : List TimeSeriesPoint → List TimeSeriesPoint
  | [] => []
  | p :: ps =>
    let peak' := if p.value > peak then p.value else peak
    let dd := if peak' > 0 then ((peak' - p.value) / peak') * 100 else 0
    ⟨p.timestamp, dd⟩ :: drawdownSeriesLoop peak' ps

/-- Final value of the running peak over a point list (the `peak` field
returned by `calculateEquityCurve`). -/
def finalPeak (peak : ℚ) : List TimeSeriesPoint → ℚ
  | [] => peak
  | p :: ps => finalPeak (if p.value > peak then p.value else peak) ps

/-- Model of `Math.min(...)` over a value list (non-empty at every call site). -/
def listMin : List ℚ → ℚ
  | [] => 0
  | v :: vs => vs.foldl min v

/-- Model of `Math.max(...)` over a value list (non-empty at every call site). -/
def listMax : List ℚ → ℚ
  | [] => 0
  | v :: vs => vs.foldl max v

/-- Model of `calculateEquityCurve(trades, initialCapital)`; the `Date.now()`
fallback timestamp of the synthetic first point (reached only when
`trades` is empty) is the explicit argument `now`. -/
def calculateEquityCurve (trades : List Trade) (initialCapital : ℚ) (now : ℚ) :
    EquityCurveData :=
  let sortedTrades := sortByTimestamp trades
  let firstTs := ((sortedTrades.head?).map Trade.timestamp).getD now
  let equityPoints := ⟨firstTs, initialCapital⟩ :: equityPointsLoop initialCapital sortedTrades
  let drawdownPoints := drawdownSeriesLoop initialCapital equityPoints
  { equity := equityPoints
    drawdown := drawdownPoints
    peak := finalPeak initialCapital equityPoints
    valley := listMin (equityPoints.map TimeSeriesPoint.value) }

/-- Result record of `calculateDrawdown`. -/
structure DrawdownMetrics where
  maxDrawdown : ℚ
  maxDrawdownPercentage : ℚ
  currentDrawdown : ℚ
deriving DecidableEq

/-- The scan loop of `calculateDrawdown`: running peak, and the absolute
and percentage drawdown of the point where the absolute drawdown is
largest (both updated together, guarded by `drawdown > maxDrawdown`). -/
def drawdownScanLoop (peak maxDrawdown maxDrawdownPercentage : ℚ) :
    List TimeSeriesPoint → ℚ × ℚ
  | [] => (maxDrawdown, maxDrawdownPercentage)
  | p :: ps =>
    let peak' := if p.value > peak then p.value else peak
    let drawdown := peak' - p.value
    let drawdownPct := if peak' > 0 then (drawdown / peak') * 100 else 0
    if drawdown > maxDrawdown then drawdownScanLoop peak' drawdown drawdownPct ps
    else drawdownScanLoop peak' maxDrawdown maxDrawdownPercentage ps

/-- Model of `calculateDrawdown(equityCurve)`. -/
def calculateDrawdown (equityCurve : List TimeSeriesPoint) : DrawdownMetrics :=
  match equityCurve with
  | [] => ⟨0, 0, 0⟩
  | p0 :: _ =>
    let scanned := drawdownScanLoop p0.value 0 0 equityCurve
    let currentValue := ((equityCurve.getLast?).map TimeSeriesPoint.value).getD 0
    let currentPeak := listMax (equityCurve.map TimeSeriesPoint.value)
    let currentDrawdown :=
      if currentPeak > 0 then ((currentPeak - currentValue) / currentPeak) * 100 else 0
    ⟨scanned.1, scanned.2, currentDrawdown⟩

/-- The profit factor: a finite rational, or the IEEE `Infinity` produced
by `grossProfit / 0` with positive gross profit. -/
inductive ProfitFactor
  | fin (value : ℚ)
  | posInf
deriving DecidableEq

/-- Association-list step mirroring `Map.prototype.set` /
`Map.prototype.get`: append the trade to its key's group, or append a new
singleton group at the end (JavaScript `Map` preserves key insertion
order). -/
def addToGroups {κ : Type} [DecidableEq κ] (key : Trade → κ) :
    List (κ × List Trade) → Trade → List (κ × List Trade)
  | [], t => [(key t, [t])]
  | (k, g) :: rest, t =>
    if k = key t then (k, g ++ [t]) :: rest else (k, g) :: addToGroups key rest t

/-- Group a trade list by a key, in key insertion order. -/
def groupTradesBy {κ : Type} [DecidableEq κ] (key : Trade → κ) (trades : List Trade) :
    List (κ × List Trade) :=
  trades.foldl (addToGroups key) []

/-- The UTC calendar-day index of a trade's millisecond timestamp: the
date part of `new Date(ms).toISOString()` corresponds one-to-one with
`⌊ms / 86400000⌋`. -/
def dayKey (t : Trade) : ℤ := ⌊t.timestamp / 86400000⌋

open Classical in
/-- Model of `calculateSharpeRatio(trades, initialCapital, riskFreeRate)`: bucket
net PnL by UTC calendar day, convert to percent of initial capital, and
annualize the mean excess daily return over its population standard
deviation by `√252`. -/
noncomputable def calculateSharpeRatio (trades : List Trade) (initialCapital : ℚ)
    (riskFreeRate : ℚ) : ℝ :=
  if trades.isEmpty then 0
  else
    let sortedTrades := sortByTimestamp trades
    let dailyGroups := groupTradesBy dayKey sortedTrades
    let returns : List ℝ :=
      dailyGroups.map (fun g => ((((g.2.map Trade.netPnl).sum / initialCapital) * 100 : ℚ) : ℝ))
    if returns.isEmpty then 0
    else
      let mean := returns.sum / (returns.length : ℝ)
      let variance := (returns.map (fun r => (r - mean) ^ 2)).sum / (returns.length : ℝ)
      let stdDev := Real.sqrt variance
      if stdDev = 0 then 0
      else
        let dailyRiskFreeRate := (riskFreeRate : ℝ) / 252
        ((mean - dailyRiskFreeRate) / stdDev) * Real.sqrt 252

/-- The `PerformanceMetrics` scalar bundle. -/
structure PerformanceMetrics where
  totalTrades : ℕ
  winningTrades : ℕ
  losingTrades : ℕ
  winRate : ℚ
  totalPnl : ℚ
  realizedPnl : ℚ
  unrealizedPnl : ℚ
  grossProfit : ℚ
  grossLoss : ℚ
  netProfit : ℚ
  roi : ℚ
  averageReturn : ℚ
  averageWin : ℚ
  averageLoss : ℚ
  largestWin : ℚ
  largestLoss : ℚ
  profitFactor : ProfitFactor
  expectancy : ℚ
  sharpeRatio : ℝ
  maxDrawdown : ℚ
  maxDrawdownPercentage : ℚ
  currentDrawdown : ℚ
  longTrades : ℕ
  shortTrades : ℕ
  longShortRatio : ℚ
  totalVolume : ℚ
  totalFees : ℚ
  feeToProfitRatio : ℚ
  averageTradeDuration : ℚ
  shortestTrade : ℚ
  longestTrade : ℚ

/-- Model of `getEmptyMetrics()`: the all-zero bundle. -/
def getEmptyMetrics : PerformanceMetrics :=
  { totalTrades := 0, winningTrades := 0, losingTrades := 0, winRate := 0
    totalPnl := 0, realizedPnl := 0, unrealizedPnl := 0
    grossProfit := 0, grossLoss := 0, netProfit := 0, roi := 0
    averageReturn := 0, averageWin := 0, averageLoss := 0
    largestWin := 0, largestLoss := 0
    profitFactor := ProfitFactor.fin 0, expectancy := 0, sharpeRatio := 0
    maxDrawdown := 0, maxDrawdownPercentage := 0, currentDrawdown := 0
    longTrades := 0, shortTrades := 0, longShortRatio := 0
    totalVolume := 0, totalFees := 0, feeToProfitRatio := 0
    averageTradeDuration := 0, shortestTrade := 0, longestTrade := 0 }

/-- Model of `calculatePerformanceMetrics(trades, initialCapital)`.  The source
defaults `initialCapital` to 10000; the default is passed explicitly
here.  The `Date.now()` fallback inside `calculateEquityCurve` is
unreachable (that call receives a non-empty list), so it is instantiated
with `0`. -/
noncomputable def calculatePerformanceMetrics (trades : List Trade) (initialCapital : ℚ) :
    PerformanceMetrics :=
  if trades.isEmpty then getEmptyMetrics
  else
    let sortedTrades := sortByTimestamp trades
    let totalTrades := sortedTrades.length
    let winningTrades := (sortedTrades.filter (fun t => decide (t.outcome = Outcome.win))).length
    let losingTrades := (sortedTrades.filter (fun t => decide (t.outcome = Outcome.loss))).length
    let winRate : ℚ := if 0 < totalTrades then ((winningTrades : ℚ) / (totalTrades : ℚ)) * 100 else 0
    let totalPnl := (sortedTrades.map Trade.pnl).sum
    let netProfit := (sortedTrades.map Trade.netPnl).sum
    let totalFees := (sortedTrades.map Trade.fees).sum
    let wins := sortedTrades.filter (fun t => decide (t.outcome = Outcome.win))
    let losses := sortedTrades.filter (fun t => decide (t.outcome = Outcome.loss))
    let grossProfit := (wins.map Trade.pnl).sum
    let grossLoss := |(losses.map Trade.pnl).sum|
    let averageWin := if 0 < winningTrades then grossProfit / (winningTrades : ℚ) else 0
    let averageLoss := if 0 < losingTrades then grossLoss / (losingTrades : ℚ) else 0
    let largestWin := if wins.length > 0 then listMax (wins.map Trade.pnl) else 0
    let largestLoss := if losses.length > 0 then listMin (losses.map Trade.pnl) else 0
    let profitFactor :=
      if grossLoss > 0 then ProfitFactor.fin (grossProfit / grossLoss)
      else if grossProfit > 0 then ProfitFactor.posInf
      else ProfitFactor.fin 0
    let expectancy := (winRate / 100 * averageWin) - ((1 - winRate / 100) * averageLoss)
    let roi := if initialCapital > 0 then (netProfit / initialCapital) * 100 else 0
    let averageReturn := if 0 < totalTrades then totalPnl / (totalTrades : ℚ) else 0
    let equityCurve := calculateEquityCurve sortedTrades initialCapital 0
    let drawdownMetrics := calculateDrawdown equityCurve.equity
    let longTrades := (sortedTrades.filter (fun t => decide (t.side = Side.long))).length
    let shortTrades := (sortedTrades.filter (fun t => decide (t.side = Side.short))).length
    let lsRatio : ℚ := if 0 < shortTrades then (longTrades : ℚ) / (shortTrades : ℚ) else (longTrades : ℚ)
    let totalVolume := (sortedTrades.map Trade.volume).sum
    let fpRatio := if grossProfit > 0 then (totalFees / grossProfit) * 100 else 0
    let durations := sortedTrades.map Trade.duration
    let averageTradeDuration := durations.sum / (durations.length : ℚ)
    let shortestTrade := listMin durations
    let longestTrade := listMax durations
    { totalTrades := totalTrades, winningTrades := winningTrades
      losingTrades := losingTrades, winRate := winRate
      totalPnl := totalPnl, realizedPnl := totalPnl, unrealizedPnl := 0
      grossProfit := grossProfit, grossLoss := grossLoss, netProfit := netProfit
      roi := roi, averageReturn := averageReturn
      averageWin := averageWin, averageLoss := averageLoss
      largestWin := largestWin, largestLoss := largestLoss
      profitFactor := profitFactor, expectancy := expectancy
      sharpeRatio := calculateSharpeRatio sortedTrades initialCapital (2 / 100)
      maxDrawdown := drawdownMetrics.maxDrawdown
      maxDrawdownPercentage := drawdownMetrics.maxDrawdownPercentage
      currentDrawdown := drawdownMetrics.currentDrawdown
      longTrades := longTrades, shortTrades := shortTrades, longShortRatio := lsRatio
      totalVolume := totalVolume, totalFees := totalFees, feeToProfitRatio := fpRatio
      averageTradeDuration := averageTradeDuration
      shortestTrade := shortestTrade, longestTrade := longestTrade }

/-! ## Trade-behavior engine (`core/tradeAnalyticsEngine.ts`) -/

/-- Model of `calculateWinRate(trades)`. -/
def calculateWinRate (trades : List Trade) : ℚ :=
  if trades.isEmpty then 0
  else ((trades.filter (fun t => decide (t.outcome = Outcome.win))).length : ℚ)
    / (trades.length : ℚ) * 100

/-- Model of `calculateAverageWin(trades)`. -/
def calculateAverageWin (trades : List Trade) : ℚ :=
  let wins := trades.filter (fun t => decide (t.outcome = Outcome.win))
  if wins.isEmpty then 0
  else (wins.map Trade.pnl).sum / (wins.length : ℚ)

/-- Model of `calculateAverageLoss(trades)`. -/
def calculateAverageLoss (trades : List Trade) : ℚ :=
  let losses := trades.filter (fun t => decide (t.outcome = Outcome.loss))
  if losses.isEmpty then 0
  else |(losses.map Trade.pnl).sum| / (losses.length : ℚ)

/-- Model of `calculateExpectancy(trades)`. -/
def calculateExpectancy (trades : List Trade) : ℚ :=
  if trades.isEmpty then 0
  else
    let winRate := calculateWinRate trades / 100
    let lossRate := 1 - winRate
    (winRate * calculateAverageWin trades) - (lossRate * calculateAverageLoss trades)

/-- Model of `calculateProfitFactor(trades)` (the trade-behavior engine's copy). -/
def calculateProfitFactor (trades : List Trade) : ProfitFactor :=
  let wins := trades.filter (fun t => decide (t.outcome = Outcome.win))
  let losses := trades.filter (fun t => decide (t.outcome = Outcome.loss))
  let grossProfit := (wins.map Trade.pnl).sum
  let grossLoss := |(losses.map Trade.pnl).sum|
  if grossLoss = 0 then (if grossProfit > 0 then ProfitFactor.posInf else ProfitFactor.fin 0)
  else ProfitFactor.fin (grossProfit / grossLoss)

/-- Per-symbol aggregate (`SymbolPerformance`). -/
structure SymbolPerformance where
  symbol : String
  trades : ℕ
  winRate : ℚ
  totalPnl : ℚ
  averagePnl : ℚ
  volume : ℚ
deriving DecidableEq

/-- Model of `analyzeBySymbol(trades)`: group by symbol in first-occurrence order,
aggregate each group, then stable-sort by total PnL descending. -/
def analyzeBySymbol (trades : List Trade) : List SymbolPerformance :=
  let groups := groupTradesBy Trade.symbol trades
  let symbolPerformance := groups.map (fun g =>
    let totalPnl := (g.2.map Trade.pnl).sum
    { symbol := g.1
      trades := g.2.length
      winRate := calculateWinRate g.2
      totalPnl := totalPnl
      averagePnl := totalPnl / (g.2.length : ℚ)
      volume := (g.2.map Trade.volume).sum : SymbolPerformance })
  symbolPerformance.insertionSort (fun a b => b.totalPnl ≤ a.totalPnl)

/-- Model of `calculateAverageHoldTime(trades)`. -/
def calculateAverageHoldTime (trades : List Trade) : ℚ :=
  if trades.isEmpty then 0
  else (trades.map Trade.duration).sum / (trades.length : ℚ)

/-- Result record of `analyzeDirectionalBias`. -/
structure DirectionalBias where
  overall : ℚ
  recentMonth : ℚ
  recentWeek : ℚ
deriving DecidableEq

/-- Model of `analyzeDirectionalBias(trades)`: percentage of long trades overall
and in the trailing 30-day and 7-day windows; `Date.now()` is the
explicit argument `now`. -/
def analyzeDirectionalBias (now : ℚ) (trades : List Trade) : DirectionalBias :=
  if trades.isEmpty then ⟨50, 50, 50⟩
  else
    let oneWeekAgo := now - 7 * 24 * 60 * 60 * 1000
    let oneMonthAgo := now - 30 * 24 * 60 * 60 * 1000
    let longPct := fun (l : List Trade) =>
      ((l.filter (fun t => decide (t.side = Side.long))).length : ℚ) / (l.length : ℚ) * 100
    let recentMonthTrades := trades.filter (fun t => decide (t.timestamp ≥ oneMonthAgo))
    let recentWeekTrades := trades.filter (fun t => decide (t.timestamp ≥ oneWeekAgo))
    { overall := longPct trades
      recentMonth := if 0 < recentMonthTrades.length then longPct recentMonthTrades else 50
      recentWeek := if 0 < recentWeekTrades.length then longPct recentWeekTrades else 50 }

/-- Current-streak tag of `analyzeStreaks` (`'win' | 'loss' | 'none'`). -/
inductive StreakType
  | win
  | loss
  | none
deriving DecidableEq

/-- Result record of `analyzeStreaks`. -/
structure StreakStats where
  currentStreak : ℕ
  currentStreakType : StreakType
  longestWinStreak : ℕ
  longestLossStreak : ℕ
deriving DecidableEq

/-- The reverse loop of `analyzeStreaks`; `isLast` marks the first
processed (most recent) trade.  On a later trade whose outcome differs
from the most recent trade's outcome the source `break`s out of the whole
loop, abandoning the longest-streak tracking as well. -/
def streaksLoop (streakOutcome : Outcome) (isLast : Bool)
    (currentStreak longWin longLoss tempWin tempLoss : ℕ) :
    List Trade → ℕ × ℕ × ℕ
  | [] => (currentStreak, longWin, longLoss)
  | t :: ts =>
    if !isLast && decide (t.outcome ≠ streakOutcome) then (currentStreak, longWin, longLoss)
    else
      let currentStreak' := if isLast then currentStreak else currentStreak + 1
      if t.outcome = Outcome.win then
        let tempWin' := tempWin + 1
        streaksLoop streakOutcome false currentStreak' (max longWin tempWin') longLoss tempWin' 0 ts
      else
        let tempLoss' := tempLoss + 1
        streaksLoop streakOutcome false currentStreak' longWin (max longLoss tempLoss') 0 tempLoss' ts

/-- Model of `analyzeStreaks(trades)`. -/
def analyzeStreaks (trades : List Trade) : StreakStats :=
  if trades.isEmpty then ⟨0, StreakType.none, 0, 0⟩
  else
    match (sortByTimestamp trades).reverse with
    | [] => ⟨0, StreakType.none, 0, 0⟩
    | t :: ts =>
      let streakOutcome := t.outcome
      let scanned := streaksLoop streakOutcome true 1 0 0 0 0 (t :: ts)
      { currentStreak := scanned.1
        currentStreakType :=
          match streakOutcome with
          | Outcome.win => StreakType.win
          | Outcome.loss => StreakType.loss
        longestWinStreak := scanned.2.1
        longestLossStreak := scanned.2.2 }

/-! ## Time analytics engine (`core/timeAnalyticsEngine.ts`) -/

/-- The hour-of-day of a millisecond timestamp (`getHours()` modelled in
UTC): `⌊ms / 3600000⌋ mod 24`. -/
def hourOf (t : Trade) : ℤ := (⌊t.timestamp / 3600000⌋) % 24

/-- Model of `analyzeDailyPerformance(trades)`: PnL summed per calendar day, in
first-occurrence order (a `Map` keyed by the date string). -/
def analyzeDailyPerformance (trades : List Trade) : List (ℤ × ℚ) :=
  (groupTradesBy dayKey trades).map (fun g => (g.1, (g.2.map Trade.pnl).sum))

/-- Model of `analyzeHourlyPerformance(trades)`: all 24 hour buckets
pre-initialized to zero, each accumulating the PnL of the trades in that
hour. -/
def analyzeHourlyPerformance (trades : List Trade) : List (ℕ × ℚ) :=
  (List.range 24).map (fun h =>
    (h, ((trades.filter (fun t => decide (hourOf t = h))).map Trade.pnl).sum))

/-- Result record of `analyzeSessionPerformance`. -/
structure SessionPerformance where
  morning : ℚ
  afternoon : ℚ
  evening : ℚ
deriving DecidableEq

/-- Model of `analyzeSessionPerformance(trades)`: PnL summed into the morning
[0,12), afternoon [12,18) and evening [18,24) buckets. -/
def analyzeSessionPerformance (trades : List Trade) : SessionPerformance :=
  { morning := ((trades.filter (fun t => decide (hourOf t < 12))).map Trade.pnl).sum
    afternoon := ((trades.filter
      (fun t => decide (12 ≤ hourOf t ∧ hourOf t < 18))).map Trade.pnl).sum
    evening := ((trades.filter (fun t => decide (18 ≤ hourOf t))).map Trade.pnl).sum }

/-- Result record of `calculateTradeDurationMetrics`. -/
structure DurationMetrics where
  average : ℚ
  median : ℚ
  shortest : ℚ
  longest : ℚ
  averageWinDuration : ℚ
  averageLossDuration : ℚ
deriving DecidableEq

/-- The ascending sort of the durations
(`trades.map(t => t.duration).sort((a, b) => a - b)`). -/
def sortedDurations (trades : List Trade) : List ℚ :=
  (trades.map Trade.duration).insertionSort (fun a b => a ≤ b)

/-- Model of `calculateTradeDurationMetrics(trades)`: the median is the element at
index `Math.floor(length / 2)` of the ascending duration sort. -/
def calculateTradeDurationMetrics (trades : List Trade) : DurationMetrics :=
  if trades.isEmpty then ⟨0, 0, 0, 0, 0, 0⟩
  else
    let durations := sortedDurations trades
    let wins := trades.filter (fun t => decide (t.outcome = Outcome.win))
    let losses := trades.filter (fun t => decide (t.outcome = Outcome.loss))
    { average := durations.sum / (durations.length : ℚ)
      median := durations.getD (durations.length / 2) 0
      shortest := durations.getD 0 0
      longest := durations.getD (durations.length - 1) 0
      averageWinDuration :=
        if 0 < wins.length then (wins.map Trade.duration).sum / (wins.length : ℚ) else 0
      averageLossDuration :=
        if 0 < losses.length then (losses.map Trade.duration).sum / (losses.length : ℚ) else 0 }

/-- The day names indexed by `Date.prototype.getDay`. -/
def dayNames : List String :=
  ["Sunday", "Monday", "Tuesday", "Wednesday", "Thursday", "Friday", "Saturday"]

/-- Model of `getDay()` modelled in UTC: day 0 of the Unix epoch was a Thursday. -/
def dayOfWeekName (t : Trade) : String :=
  dayNames.getD ((⌊t.timestamp / 86400000⌋ + 4) % 7).toNat "Sunday"

/-- Result record of `analyzeTradeFrequency`. -/
structure TradeFrequency where
  tradesPerDay : ℚ
  tradesPerWeek : ℚ
  tradesPerMonth : ℚ
  mostActiveDay : String
  leastActiveDay : String
deriving DecidableEq

/-- Model of `analyzeTradeFrequency(trades)`: rates from the elapsed span between
the first and last trade (falling back to the raw count when the span is
not positive), and most/least active day of week with
first-encountered-wins tie-breaking over the `dayNames` order. -/
def analyzeTradeFrequency (trades : List Trade) : TradeFrequency :=
  if trades.isEmpty then ⟨0, 0, 0, "N/A", "N/A"⟩
  else
    let sortedTrades := sortByTimestamp trades
    let firstTrade := ((sortedTrades.head?).map Trade.timestamp).getD 0
    let lastTrade := ((sortedTrades.getLast?).map Trade.timestamp).getD 0
    let daysSpan := (lastTrade - firstTrade) / (1000 * 60 * 60 * 24)
    let tradesPerDay := if daysSpan > 0 then (trades.length : ℚ) / daysSpan else (trades.length : ℚ)
    let counts := dayNames.map (fun d =>
      (d, (trades.filter (fun t => decide (dayOfWeekName t = d))).length))
    let best := counts.foldl (fun (acc : String × ℕ) c => if c.2 > acc.2 then c else acc)
      (counts.headD ("Sunday", 0))
    let worst := counts.foldl (fun (acc : String × ℕ) c => if c.2 < acc.2 then c else acc)
      (counts.headD ("Sunday", 0))
    { tradesPerDay := tradesPerDay
      tradesPerWeek := tradesPerDay * 7
      tradesPerMonth := tradesPerDay * 30
      mostActiveDay := best.1
      leastActiveDay := worst.1 }

/-! ## Fee engine (`data/tradeDataService.ts`, fee analytics section) -/

/-- Model of `calculateTotalFees(trades)`. -/
def calculateTotalFees (trades : List Trade) : ℚ :=
  (trades.map Trade.fees).sum

/-- Model of `calculateTotalVolume(trades)`. -/
def calculateTotalVolume (trades : List Trade) : ℚ :=
  (trades.map Trade.volume).sum

/-- The `FeeBreakdown` value object. -/
structure FeeBreakdown where
  totalFees : ℚ
  makerFees : ℚ
  takerFees : ℚ
  makerPercentage : ℚ
  takerPercentage : ℚ
deriving DecidableEq

/-- The accumulation loop of `analyzeFeeComposition`: running maker and
taker fee totals, an absent optional fee contributing 0 (`|| 0`). -/
def feeSums (trades : List Trade) : ℚ × ℚ :=
  trades.foldl (fun acc t => (acc.1 + t.makerFee.getD 0, acc.2 + t.takerFee.getD 0)) (0, 0)

/-- Model of `analyzeFeeComposition(trades)`: only the optional `makerFee` and
`takerFee` fields contribute; percentages are 0 when the maker+taker
total is not positive. -/
def analyzeFeeComposition (trades : List Trade) : FeeBreakdown :=
  let makerFees := (feeSums trades).1
  let takerFees := (feeSums trades).2
  let totalFees := makerFees + takerFees
  { totalFees := totalFees
    makerFees := makerFees
    takerFees := takerFees
    makerPercentage := if totalFees > 0 then (makerFees / totalFees) * 100 else 0
    takerPercentage := if totalFees > 0 then (takerFees / totalFees) * 100 else 0 }

/-! ## Example inputs used by the concrete theorems -/

/-- Example-trade builder: all fields that the engine under scrutiny does
not read are fixed to neutral values. -/
def mkTrade (ts dur tradePnl tradeNetPnl : ℚ) (outcome : Outcome) : Trade :=
  { id := "t", timestamp := ts, symbol := "SOL/USDC", side := Side.long
    entryPrice := 0, exitPrice := 0, quantity := 0, leverage := Option.none
    pnl := tradePnl, pnlPercentage := 0, fees := 0, netPnl := tradeNetPnl
    orderType := OrderType.market, duration := dur, outcome := outcome
    volume := 0, makerFee := Option.none, takerFee := Option.none
    notes := Option.none, tags := [] }

/-- A losing trade at the given timestamp. -/
def lossTrade (ts : ℚ) : Trade := mkTrade ts 0 (-5) (-5) Outcome.loss

/-- Example: 5 trades spaced 10 minutes apart, each of duration 20 minutes. -/
def exFiveFast : List Trade :=
  (List.range 5).map (fun i => mkTrade (600000 * i) 1200000 0 0 Outcome.win)

/-- Example: 7 trades spaced 10 minutes apart, each of duration 20 minutes. -/
def exSevenFast : List Trade :=
  (List.range 7).map (fun i => mkTrade (600000 * i) 1200000 0 0 Outcome.win)

/-- Example: 10 trades spaced 10 minutes apart, each of duration 20 minutes. -/
def exTenFast : List Trade :=
  (List.range 10).map (fun i => mkTrade (600000 * i) 1200000 0 0 Outcome.win)

/-- The same 10 trades spaced 2 hours apart. -/
def exTenSlow : List Trade :=
  (List.range 10).map (fun i => mkTrade (7200000 * i) 1200000 0 0 Outcome.win)

/-- Example: 4 trades within a 90-minute span, 3 wins and 1 loss. -/
def exCluster4 : List Trade :=
  [mkTrade 0 0 20 20 Outcome.win,
   mkTrade 1800000 0 30 30 Outcome.win,
   mkTrade 3600000 0 40 40 Outcome.win,
   mkTrade 5400000 0 (-10) (-10) Outcome.loss]

/-- Example: 4 trades with durations 4, 2, 3, 1 (an even-length duration sample
whose sorted form is [1, 2, 3, 4]). -/
def exDurations4 : List Trade :=
  [mkTrade 0 4 0 0 Outcome.win,
   mkTrade 1 2 0 0 Outcome.win,
   mkTrade 2 3 0 0 Outcome.win,
   mkTrade 3 1 0 0 Outcome.win]

/-- A trade with 5 currency units of fees but no maker/taker split. -/
def feeOnlyTrade : Trade :=
  { mkTrade 0 0 0 (-5) Outcome.win with fees := 5 }

/-! ## C5: analyzeConsecutiveLosses -/

/-- C5.  `analyzeConsecutiveLosses` on two chronologically consecutive
losses: the chronological suffix of losses has length 2 but the returned
`currentConsecutiveLosses` is 1 (the source increments it only at the
last index), while `maxConsecutiveLosses` is the correct 2. -/
theorem currentConsecutiveLosses_stuck_at_one :
    analyzeConsecutiveLosses [lossTrade 0, lossTrade 1]
      = ConsecutiveLossStats.mk 1 2 ∧
    (analyzeConsecutiveLosses [lossTrade 0, lossTrade 1]).currentConsecutiveLosses ≠ 2 := by
  constructor
  · decide
  · decide

/-! ## C4: detectOvertrading -/

/-- C4 counterexample.  For 5 trades spaced 10 minutes apart, each of
duration 20 minutes, `detectOvertrading` is false, not true: the function
returns false outright for fewer than 10 trades. -/
theorem five_trades_no_overtrading :
    exFiveFast.length = 5 ∧ detectOvertrading exFiveFast = false := by
  constructor
  · decide
  · decide

/-- C4 (amended).  `detectOvertrading` is false for every list of fewer
than 10 trades; for 10 trades spaced 10 minutes apart with 20-minute
durations it is true (both thresholds breached), and for the same 10
trades spaced 2 hours apart it is false. -/
theorem overtrading_needs_ten_trades :
    (∀ trades : List Trade, trades.length < 10 → detectOvertrading trades = false) ∧
    detectOvertrading exTenFast = true ∧
    detectOvertrading exTenSlow = false := by
  refine ⟨?_, ?_, ?_⟩
  · intro trades h
    simp [detectOvertrading, h]
  · norm_num [detectOvertrading, exTenFast, mkTrade, sortByTimestamp, timeGapsSum,
      List.insertionSort, List.orderedInsert, List.range_succ]
  · norm_num [detectOvertrading, exTenSlow, mkTrade, sortByTimestamp, timeGapsSum,
      List.insertionSort, List.orderedInsert, List.range_succ]

/-- Witness for C4: the general part of the theorem applied to a concrete
7-trade list. -/
theorem overtrading_witness : detectOvertrading exSevenFast = false :=
  overtrading_needs_ten_trades.1 exSevenFast (by decide)

/-! ## C9: duration median -/

/-- C9 counterexample.  On the even-length duration sample [4, 2, 3, 1]
(sorted: [1, 2, 3, 4]) the median returned is 3, the upper-middle
element, not the lower-middle element 2 and not the interpolated
average 5/2. -/
theorem median_takes_upper_middle_cex :
    (calculateTradeDurationMetrics exDurations4).median = 3 ∧
    (sortedDurations exDurations4).getD 1 0 = 2 ∧
    (calculateTradeDurationMetrics exDurations4).median ≠ (sortedDurations exDurations4).getD 1 0 ∧
    (calculateTradeDurationMetrics exDurations4).median ≠ 5 / 2 := by
  refine ⟨?_, ?_, ?_, ?_⟩ <;>
    norm_num [calculateTradeDurationMetrics, sortedDurations, exDurations4, mkTrade,
      List.insertionSort, List.orderedInsert]

/-! ## C10: fee composition -/

/-- The fee-sum fold with an arbitrary starting accumulator. -/
theorem feeSums_foldl (l : List Trade) : ∀ a b : ℚ,
    l.foldl (fun acc t => (acc.1 + t.makerFee.getD 0, acc.2 + t.takerFee.getD 0)) (a, b)
      = (a + (l.map (fun t => t.makerFee.getD 0)).sum,
         b + (l.map (fun t => t.takerFee.getD 0)).sum) := by
  induction l with
  | nil => intro a b; simp
  | cons t ts ih =>
    intro a b
    simp only [List.foldl_cons, List.map_cons, List.sum_cons, ih]
    simp [add_assoc]

/-- C10.  `analyzeFeeComposition` counts only the optional maker/taker
fee fields (absent treated as 0); a trade list whose only trade carries 5
units of `fees` but no maker/taker split yields a fee composition whose
total and percentages are all 0 even though `calculateTotalFees` of the
same list is the positive 5. -/
theorem feeComposition_maker_taker_only :
    (∀ trades : List Trade,
      (analyzeFeeComposition trades).totalFees
        = (trades.map (fun t => t.makerFee.getD 0)).sum
          + (trades.map (fun t => t.takerFee.getD 0)).sum) ∧
    (analyzeFeeComposition [feeOnlyTrade]).totalFees = 0 ∧
    (analyzeFeeComposition [feeOnlyTrade]).makerPercentage = 0 ∧
    (analyzeFeeComposition [feeOnlyTrade]).takerPercentage = 0 ∧
    calculateTotalFees [feeOnlyTrade] = 5 ∧
    (0 : ℚ) < calculateTotalFees [feeOnlyTrade] := by
  refine ⟨?_, ?_, ?_, ?_, ?_, ?_⟩
  · intro trades
    have h := feeSums_foldl trades 0 0
    simp only [zero_add] at h
    simp only [analyzeFeeComposition, feeSums]
    rw [h]
  all_goals
    norm_num [analyzeFeeComposition, feeSums, calculateTotalFees, feeOnlyTrade, mkTrade]

/-! ## C2: empty-input results -/

/-- C2 counterexample.  `analyzeDirectionalBias` on the empty trade list
returns the neutral bundle (50, 50, 50), not a zeroed bundle. -/
theorem directionalBias_empty_neutral_not_zero :
    analyzeDirectionalBias 0 [] = DirectionalBias.mk 50 50 50 ∧
    (analyzeDirectionalBias 0 []).overall ≠ 0 := by
  refine ⟨rfl, by norm_num [analyzeDirectionalBias]⟩

/-- C2 (amended).  Every core engine operation has a defined, non-throwing
empty-input result.  For most operations it is a zeroed scalar bundle or
an empty sequence (in particular `calculatePerformanceMetrics` returns
the all-zero bundle); the exceptions are `analyzeDirectionalBias`, which
returns the neutral 50 for each period, and `calculateEquityCurve`, whose
equity series is the single synthetic point valued `initialCapital`. -/
theorem empty_input_results (cap equity now : ℚ) :
    calculatePerformanceMetrics [] cap = getEmptyMetrics ∧
    getEmptyMetrics.totalTrades = 0 ∧
    getEmptyMetrics.winRate = 0 ∧
    getEmptyMetrics.totalPnl = 0 ∧
    getEmptyMetrics.netProfit = 0 ∧
    getEmptyMetrics.roi = 0 ∧
    getEmptyMetrics.profitFactor = ProfitFactor.fin 0 ∧
    PerformanceMetrics.sharpeRatio getEmptyMetrics = 0 ∧
    getEmptyMetrics.maxDrawdown = 0 ∧
    getEmptyMetrics.maxDrawdownPercentage = 0 ∧
    calculateRiskScore [] equity = 0 ∧
    analyzeConsecutiveLosses [] = ConsecutiveLossStats.mk 0 0 ∧
    detectOvertrading [] = false ∧
    analyzeTradeClusterPatterns [] = [] ∧
    calculateWinRate [] = 0 ∧
    calculateAverageWin [] = 0 ∧
    calculateAverageLoss [] = 0 ∧
    calculateExpectancy [] = 0 ∧
    calculateProfitFactor [] = ProfitFactor.fin 0 ∧
    analyzeBySymbol [] = [] ∧
    calculateAverageHoldTime [] = 0 ∧
    analyzeStreaks [] = StreakStats.mk 0 StreakType.none 0 0 ∧
    analyzeDailyPerformance [] = [] ∧
    analyzeHourlyPerformance [] = (List.range 24).map (fun h => (h, 0)) ∧
    analyzeSessionPerformance [] = SessionPerformance.mk 0 0 0 ∧
    calculateTradeDurationMetrics [] = DurationMetrics.mk 0 0 0 0 0 0 ∧
    analyzeTradeFrequency [] = TradeFrequency.mk 0 0 0 "N/A" "N/A" ∧
    calculateTotalFees [] = 0 ∧
    analyzeFeeComposition [] = FeeBreakdown.mk 0 0 0 0 0 ∧
    calculateSharpeRatio [] cap (2 / 100) = 0 ∧
    analyzeDirectionalBias now [] = DirectionalBias.mk 50 50 50 ∧
    (calculateEquityCurve [] cap now).equity = [TimeSeriesPoint.mk now cap] ∧
    calculateDrawdown [] = DrawdownMetrics.mk 0 0 0 ∧
    (getRiskMetrics [] equity).riskScore = 0 ∧
    (getRiskMetrics [] equity).consecutiveLosses = 0 ∧
    (getRiskMetrics [] equity).overtradingFlag = false ∧
    (getRiskMetrics [] equity).performanceConsistency = 0 ∧
    (getRiskMetrics [] equity).avgDailyTrades = 0 := by
  refine ⟨rfl, rfl, rfl, rfl, rfl, rfl, rfl, rfl, rfl, rfl, rfl, rfl, rfl, rfl, rfl, rfl,
    rfl, ?_, ?_, rfl, rfl, rfl, rfl, ?_, rfl, rfl, rfl, rfl, ?_, rfl, rfl, rfl, rfl, rfl,
    rfl, rfl, rfl, ?_⟩
  · norm_num [calculateExpectancy, calculateWinRate, calculateAverageWin, calculateAverageLoss]
  · norm_num [calculateProfitFactor]
  · norm_num [analyzeHourlyPerformance]
  · norm_num [analyzeFeeComposition, feeSums]
  · norm_num [getRiskMetrics, sortByTimestamp]

/-! ## C6: trade clusters -/

/-- C6 counterexample.  A list of exactly 4 trades inside a 90-minute
span with 3 wins and 1 loss produces no cluster at all:
`analyzeTradeClusterPatterns` returns `[]` outright for fewer than 5
trades. -/
theorem four_trade_cluster_discarded :
    exCluster4.length = 4 ∧ analyzeTradeClusterPatterns exCluster4 = [] :=
  ⟨rfl, rfl⟩

/-- C6 (amended).  Inside a list of 5 trades, 4 trades at minutes 0, 30,
60 and 90 (3 wins then 1 loss) that are separated from the remaining
trade by more than the 2-hour window form a single winning-streak
cluster, and its `avgPnl` is the average PnL of exactly those 4 trades
(arbitrary PnL fields, in particular independent of the 5th trade's
PnL), not a global average. -/
theorem winning_cluster_avg_is_per_cluster (t1 t2 t3 t4 t5 : Trade) :
    analyzeTradeClusterPatterns
      [{ t1 with timestamp := 0, outcome := Outcome.win },
       { t2 with timestamp := 1800000, outcome := Outcome.win },
       { t3 with timestamp := 3600000, outcome := Outcome.win },
       { t4 with timestamp := 5400000, outcome := Outcome.loss },
       { t5 with timestamp := 41400000 }]
      = [{ startTime := 0, endTime := 5400000, tradeCount := 4,
           avgPnl := (t1.pnl + t2.pnl + t3.pnl + t4.pnl) / 4,
           pattern := ClusterPattern.winningStreak }] := by
  have hs : sortByTimestamp
      [{ t1 with timestamp := 0, outcome := Outcome.win },
       { t2 with timestamp := 1800000, outcome := Outcome.win },
       { t3 with timestamp := 3600000, outcome := Outcome.win },
       { t4 with timestamp := 5400000, outcome := Outcome.loss },
       { t5 with timestamp := 41400000 }]
      = [{ t1 with timestamp := 0, outcome := Outcome.win },
       { t2 with timestamp := 1800000, outcome := Outcome.win },
       { t3 with timestamp := 3600000, outcome := Outcome.win },
       { t4 with timestamp := 5400000, outcome := Outcome.loss },
       { t5 with timestamp := 41400000 }] := by
    apply List.Sorted.insertionSort_eq
    simp [List.sorted_cons]
    norm_num
  have hwl : (Outcome.loss = Outcome.win) = False :=
    eq_false (by decide : ¬ (Outcome.loss = Outcome.win))
  have hlw : (Outcome.win = Outcome.loss) = False :=
    eq_false (by decide : ¬ (Outcome.win = Outcome.loss))
  simp only [analyzeTradeClusterPatterns, hs]
  norm_num [clusterLoop, clusterWindow, analyzeCluster, TradeCluster.mk.injEq,
    List.filter_cons, List.filter_nil, hwl, hlw]
  ring

/-! ## C1: risk score range -/

/-- The drawdown loop never decreases a non-negative accumulator. -/
theorem maxDrawdownLoop_nonneg (l : List Trade) :
    ∀ peak maxDrawdown runningEquity : ℚ, 0 ≤ maxDrawdown →
      0 ≤ maxDrawdownLoop peak maxDrawdown runningEquity l := by
  induction l with
  | nil => intro _ _ _ h; simpa [maxDrawdownLoop] using h
  | cons t ts ih =>
    intro peak maxDrawdown runningEquity h
    simp only [maxDrawdownLoop]
    exact ih _ _ _ (le_trans h (le_max_left _ _))

/-- The function `calculateMaxDrawdownPercentage` is non-negative on every input. -/
theorem calculateMaxDrawdownPercentage_nonneg (l : List Trade) (cap : ℚ) :
    0 ≤ calculateMaxDrawdownPercentage l cap := by
  unfold calculateMaxDrawdownPercentage
  split
  · exact le_refl 0
  · exact maxDrawdownLoop_nonneg _ _ _ _ (le_refl 0)

/-- The return volatility (a square root) is non-negative. -/
theorem calculateReturnVolatility_nonneg (l : List Trade) :
    0 ≤ calculateReturnVolatility l := by
  unfold calculateReturnVolatility
  split
  · exact le_refl 0
  · exact Real.sqrt_nonneg _

/-- C1.  The four risk factors are non-negative and individually capped
(30, 25, 25, 20), and `calculateRiskScore` always lies in [0, 100] — the
sum is rounded and clamped to 100, and no input can push it below 0. -/
theorem riskScore_in_range (trades : List Trade) (totalEquity : ℚ) :
    (0 ≤ drawdownFactor (sortByTimestamp trades) totalEquity ∧
      drawdownFactor (sortByTimestamp trades) totalEquity ≤ 30) ∧
    (0 ≤ streakFactor (sortByTimestamp trades) ∧
      streakFactor (sortByTimestamp trades) ≤ 25) ∧
    (0 ≤ volatilityFactor (sortByTimestamp trades) ∧
      volatilityFactor (sortByTimestamp trades) ≤ 25) ∧
    (overtradingFactor (sortByTimestamp trades) = 0 ∨
      overtradingFactor (sortByTimestamp trades) = 20) ∧
    (0 ≤ calculateRiskScore trades totalEquity ∧
      calculateRiskScore trades totalEquity ≤ 100) := by
  have hd0 : 0 ≤ drawdownFactor (sortByTimestamp trades) totalEquity :=
    le_min
      (mul_nonneg (by exact_mod_cast calculateMaxDrawdownPercentage_nonneg _ _) (by norm_num))
      (by norm_num)
  have hd1 : drawdownFactor (sortByTimestamp trades) totalEquity ≤ 30 := min_le_right _ _
  have hs0 : 0 ≤ streakFactor (sortByTimestamp trades) :=
    le_min (mul_nonneg (Nat.cast_nonneg _) (by norm_num)) (by norm_num)
  have hs1 : streakFactor (sortByTimestamp trades) ≤ 25 := min_le_right _ _
  have hv0 : 0 ≤ volatilityFactor (sortByTimestamp trades) :=
    le_min (mul_nonneg (calculateReturnVolatility_nonneg _) (by norm_num)) (by norm_num)
  have hv1 : volatilityFactor (sortByTimestamp trades) ≤ 25 := min_le_right _ _
  have ho : overtradingFactor (sortByTimestamp trades) = 0 ∨
      overtradingFactor (sortByTimestamp trades) = 20 := by
    unfold overtradingFactor
    split
    · exact Or.inr rfl
    · exact Or.inl rfl
  have ho0 : 0 ≤ overtradingFactor (sortByTimestamp trades) := by
    rcases ho with h | h <;> rw [h] <;> norm_num
  refine ⟨⟨hd0, hd1⟩, ⟨hs0, hs1⟩, ⟨hv0, hv1⟩, ho, ?_, ?_⟩
  · unfold calculateRiskScore
    split
    · norm_num
    · refine le_min ?_ (by norm_num)
      rw [round_eq]
      exact Int.floor_nonneg.mpr (by linarith)
  · unfold calculateRiskScore
    split
    · norm_num
    · exact min_le_right _ _

/-! ## C3: equity curve and drawdown -/

/-- The equity-point loop produces exactly the tail of the cumulative
net-PnL scan. -/
theorem equityPointsLoop_map_value :
    ∀ (l : List Trade) (runningEquity : ℚ),
      (equityPointsLoop runningEquity l).map TimeSeriesPoint.value
        = (List.scanl (fun e t => e + t.netPnl) runningEquity l).tail := by
  intro l
  induction l with
  | nil => intro r; simp [equityPointsLoop, List.scanl_nil]
  | cons t ts ih =>
    intro r
    simp only [equityPointsLoop, List.map_cons, List.scanl_cons, List.singleton_append,
      List.tail_cons, ih]
    cases ts <;> simp [List.scanl_nil, List.scanl_cons]

/-- The drawdown-scan loop keeps its percentage accumulator inside
[0, 100] as long as every remaining point has a non-negative value. -/
theorem drawdownScanLoop_pct_bounds :
    ∀ (l : List TimeSeriesPoint) (peak maxDrawdown pct : ℚ),
      0 ≤ pct → pct ≤ 100 → (∀ p ∈ l, 0 ≤ p.value) →
      0 ≤ (drawdownScanLoop peak maxDrawdown pct l).2 ∧
        (drawdownScanLoop peak maxDrawdown pct l).2 ≤ 100 := by
  intro l
  induction l with
  | nil => intro peak maxDrawdown pct h0 h100 _; simpa [drawdownScanLoop] using ⟨h0, h100⟩
  | cons p ps ih =>
    intro peak maxDrawdown pct h0 h100 hmem
    have hv0 : 0 ≤ p.value := hmem p (List.mem_cons_self _ _)
    have hmem' : ∀ q ∈ ps, 0 ≤ q.value := fun q hq => hmem q (List.mem_cons_of_mem _ hq)
    simp only [drawdownScanLoop]
    have hvle : p.value ≤ (if p.value > peak then p.value else peak) := by
      split
      · exact le_refl _
      · linarith [not_lt.mp (by assumption)]
    set peak' := if p.value > peak then p.value else peak with hpeak'
    have hdd : (0 : ℚ) ≤ (if peak' > 0 then ((peak' - p.value) / peak') * 100 else 0) ∧
        (if peak' > 0 then ((peak' - p.value) / peak') * 100 else 0) ≤ 100 := by
      split
      · rename_i hpk
        constructor
        · have := sub_nonneg.mpr hvle
          positivity
        · have h1 : (peak' - p.value) / peak' ≤ 1 := by
            rw [div_le_one hpk]
            linarith
          nlinarith
      · norm_num
    split
    · exact ih _ _ _ hdd.1 hdd.2 hmem'
    · exact ih _ _ _ h0 h100 hmem'

/-- C3 counterexample.  With initial capital 100 and a single trade of
net PnL −200 the equity curve dips to −100, and
`calculateDrawdown` reports a `maxDrawdownPercentage` of 200, outside
[0, 100]. -/
theorem maxDrawdownPercentage_exceeds_100 :
    (calculateDrawdown
        (calculateEquityCurve [mkTrade 0 0 (-200) (-200) Outcome.loss] 100 0).equity).maxDrawdownPercentage
      = 200 ∧
    ¬ (calculateDrawdown
        (calculateEquityCurve [mkTrade 0 0 (-200) (-200) Outcome.loss] 100 0).equity).maxDrawdownPercentage
      ≤ 100 := by
  have h : (calculateDrawdown
      (calculateEquityCurve [mkTrade 0 0 (-200) (-200) Outcome.loss] 100 0).equity).maxDrawdownPercentage
      = 200 := by
    norm_num [calculateDrawdown, calculateEquityCurve, equityPointsLoop, drawdownSeriesLoop,
      drawdownScanLoop, sortByTimestamp, List.insertionSort, List.orderedInsert, mkTrade,
      listMax, listMin, finalPeak]
  exact ⟨h, by rw [h]; norm_num⟩

/-- The drawdown-scan loop keeps its percentage accumulator non-negative
on every input: the running peak is at least the current value, so each
candidate percentage is non-negative. -/
theorem drawdownScanLoop_pct_nonneg :
    ∀ (l : List TimeSeriesPoint) (peak maxDrawdown pct : ℚ), 0 ≤ pct →
      0 ≤ (drawdownScanLoop peak maxDrawdown pct l).2 := by
  intro l
  induction l with
  | nil => intro peak maxDrawdown pct h0; simpa [drawdownScanLoop] using h0
  | cons p ps ih =>
    intro peak maxDrawdown pct h0
    simp only [drawdownScanLoop]
    have hvle : p.value ≤ (if p.value > peak then p.value else peak) := by
      split
      · exact le_refl _
      · linarith [not_lt.mp (by assumption)]
    set peak' := if p.value > peak then p.value else peak with hpeak'
    have hdd : (0 : ℚ) ≤ (if peak' > 0 then ((peak' - p.value) / peak') * 100 else 0) := by
      split
      · rename_i hpk
        have := sub_nonneg.mpr hvle
        positivity
      · exact le_refl 0
    split
    · exact ih _ _ _ hdd
    · exact ih _ _ _ h0

/-- C3 (amended).  Unconditionally, the equity values are exactly the
cumulative net-PnL scan starting at `initialCapital` (so the first point
is `initialCapital` and each subsequent point adds that trade's net
PnL) and the reported `maxDrawdownPercentage` is never negative; it is
moreover at most 100 whenever the equity curve never goes below zero
(the counterexample shows it exceeds 100 when equity goes negative). -/
theorem equityCurve_cumulative_and_drawdown_bounds (trades : List Trade) (cap now : ℚ) :
    (calculateEquityCurve trades cap now).equity.map TimeSeriesPoint.value
      = List.scanl (fun e t => e + t.netPnl) cap (sortByTimestamp trades) ∧
    0 ≤ (calculateDrawdown
        (calculateEquityCurve trades cap now).equity).maxDrawdownPercentage ∧
    ((∀ p ∈ (calculateEquityCurve trades cap now).equity, 0 ≤ p.value) →
      (calculateDrawdown
        (calculateEquityCurve trades cap now).equity).maxDrawdownPercentage ≤ 100) := by
  have hshape : (calculateEquityCurve trades cap now).equity
      = ⟨((sortByTimestamp trades).head?.map Trade.timestamp).getD now, cap⟩
        :: equityPointsLoop cap (sortByTimestamp trades) := rfl
  have hdd : (calculateDrawdown (calculateEquityCurve trades cap now).equity).maxDrawdownPercentage
      = (drawdownScanLoop cap 0 0 ((calculateEquityCurve trades cap now).equity)).2 := by
    rw [hshape]
    simp [calculateDrawdown]
  refine ⟨?_, ?_, ?_⟩
  · simp only [calculateEquityCurve, List.map_cons, equityPointsLoop_map_value]
    cases h : sortByTimestamp trades <;> simp [List.scanl_nil, List.scanl_cons]
  · rw [hdd]
    exact drawdownScanLoop_pct_nonneg _ cap 0 0 (le_refl 0)
  · intro hnn
    have hscan := drawdownScanLoop_pct_bounds
      ((calculateEquityCurve trades cap now).equity) cap 0 0 (le_refl 0) (by norm_num) hnn
    rw [hdd]
    exact hscan.2

/-- Witness for C3: the amended theorem applied to one trade of net PnL
−50 on capital 100 (equity stays non-negative), discharging the
non-negativity hypothesis of the upper bound. -/
theorem equityCurve_drawdown_bounds_witness :
    0 ≤ (calculateDrawdown
        (calculateEquityCurve [mkTrade 0 0 (-50) (-50) Outcome.loss] 100 0).equity).maxDrawdownPercentage ∧
    (calculateDrawdown
        (calculateEquityCurve [mkTrade 0 0 (-50) (-50) Outcome.loss] 100 0).equity).maxDrawdownPercentage
      ≤ 100 := by
  have h := equityCurve_cumulative_and_drawdown_bounds
    [mkTrade 0 0 (-50) (-50) Outcome.loss] 100 0
  refine ⟨h.2.1, h.2.2 ?_⟩
  intro p hp
  simp only [calculateEquityCurve, equityPointsLoop, sortByTimestamp, List.insertionSort,
    List.orderedInsert, mkTrade, List.mem_cons, List.not_mem_nil, or_false] at hp
  rcases hp with h | h <;> rw [h] <;> norm_num

/-! ## C7: per-symbol conservation -/

/-- Adding one trade to the grouped association list adds exactly its
`f`-value to the total of the per-group `f`-sums. -/
theorem addToGroups_map_sum {κ : Type} [DecidableEq κ] {M : Type} [AddCommMonoid M]
    (key : Trade → κ) (f : Trade → M) :
    ∀ (gs : List (κ × List Trade)) (t : Trade),
      ((addToGroups key gs t).map (fun g => (g.2.map f).sum)).sum
        = (gs.map (fun g => (g.2.map f).sum)).sum + f t := by
  intro gs t
  induction gs with
  | nil => simp [addToGroups]
  | cons g gs ih =>
    obtain ⟨k, grp⟩ := g
    simp only [addToGroups]
    split
    · simp only [List.map_cons, List.sum_cons, List.map_append, List.sum_append,
        List.map_cons, List.sum_cons, List.map_nil, List.sum_nil]
      rw [add_zero, add_assoc, add_comm (f t), ← add_assoc]
    · simp only [List.map_cons, List.sum_cons, ih, add_assoc]

/-- Grouping a trade list by any key conserves the total of any additive
trade statistic. -/
theorem groupTradesBy_map_sum {κ : Type} [DecidableEq κ] {M : Type} [AddCommMonoid M]
    (key : Trade → κ) (f : Trade → M) (trades : List Trade) :
    ((groupTradesBy key trades).map (fun g => (g.2.map f).sum)).sum
      = (trades.map f).sum := by
  suffices h : ∀ (l : List Trade) (gs : List (κ × List Trade)),
      ((l.foldl (addToGroups key) gs).map (fun g => (g.2.map f).sum)).sum
        = (gs.map (fun g => (g.2.map f).sum)).sum + (l.map f).sum by
    simpa [groupTradesBy] using h trades []
  intro l
  induction l with
  | nil => intro gs; simp
  | cons t ts ih =>
    intro gs
    simp only [List.foldl_cons, ih, addToGroups_map_sum, List.map_cons, List.sum_cons,
      add_assoc]

/-- Mapping every element to 1 and summing counts the length. -/
theorem sum_map_ones {α : Type} (l : List α) : (l.map (fun _ => (1 : ℕ))).sum = l.length := by
  induction l with
  | nil => simp
  | cons a l ih => simp [ih, Nat.add_comm]

/-- C7.  The per-symbol breakdown conserves totals: the per-symbol
`totalPnl` values sum to the overall total PnL, and the per-symbol trade
counts sum to the total number of trades. -/
theorem symbol_breakdown_conserves_totals (trades : List Trade) (h : trades ≠ []) :
    ((analyzeBySymbol trades).map SymbolPerformance.totalPnl).sum
      = (trades.map Trade.pnl).sum ∧
    ((analyzeBySymbol trades).map SymbolPerformance.trades).sum = trades.length := by
  have hperm : List.Perm (analyzeBySymbol trades)
      ((groupTradesBy Trade.symbol trades).map (fun g =>
        let totalPnl := (g.2.map Trade.pnl).sum
        { symbol := g.1
          trades := g.2.length
          winRate := calculateWinRate g.2
          totalPnl := totalPnl
          averagePnl := totalPnl / (g.2.length : ℚ)
          volume := (g.2.map Trade.volume).sum : SymbolPerformance })) :=
    List.perm_insertionSort _ _
  constructor
  · rw [(hperm.map SymbolPerformance.totalPnl).sum_eq]
    simp only [List.map_map]
    have := groupTradesBy_map_sum Trade.symbol Trade.pnl trades
    simpa [Function.comp] using this
  · rw [(hperm.map SymbolPerformance.trades).sum_eq]
    simp only [List.map_map]
    have hcount := groupTradesBy_map_sum Trade.symbol (fun _ => (1 : ℕ)) trades
    rw [sum_map_ones] at hcount
    rw [← hcount]
    congr 1
    apply List.map_congr_left
    intro g _
    simp [Function.comp, sum_map_ones]

/-- Witness for C7: the conservation law applied to a concrete 3-trade,
2-symbol list. -/
theorem symbol_breakdown_witness :
    ((analyzeBySymbol [mkTrade 0 0 10 10 Outcome.win,
        { mkTrade 1 0 20 20 Outcome.win with symbol := "BTC/USDC" },
        mkTrade 2 0 (-5) (-5) Outcome.loss]).map SymbolPerformance.totalPnl).sum
      = ([mkTrade 0 0 10 10 Outcome.win,
          { mkTrade 1 0 20 20 Outcome.win with symbol := "BTC/USDC" },
          mkTrade 2 0 (-5) (-5) Outcome.loss].map Trade.pnl).sum ∧
    ((analyzeBySymbol [mkTrade 0 0 10 10 Outcome.win,
        { mkTrade 1 0 20 20 Outcome.win with symbol := "BTC/USDC" },
        mkTrade 2 0 (-5) (-5) Outcome.loss]).map SymbolPerformance.trades).sum
      = ([mkTrade 0 0 10 10 Outcome.win,
          { mkTrade 1 0 20 20 Outcome.win with symbol := "BTC/USDC" },
          mkTrade 2 0 (-5) (-5) Outcome.loss] : List Trade).length :=
  symbol_breakdown_conserves_totals _ (by simp)

/-! ## C8: profit factor -/

/-- Gross profit: the summed PnL of the winning trades. -/
def grossProfitOf (trades : List Trade) : ℚ :=
  ((trades.filter (fun t => decide (t.outcome = Outcome.win))).map Trade.pnl).sum

/-- Gross loss: the absolute value of the summed PnL of the losing
trades. -/
def grossLossOf (trades : List Trade) : ℚ :=
  |((trades.filter (fun t => decide (t.outcome = Outcome.loss))).map Trade.pnl).sum|

/-- Sorting by timestamp does not change the gross profit. -/
theorem grossProfitOf_sort (trades : List Trade) :
    grossProfitOf (sortByTimestamp trades) = grossProfitOf trades := by
  have hp : List.Perm (sortByTimestamp trades) trades := List.perm_insertionSort _ _
  exact ((hp.filter _).map _).sum_eq

/-- Sorting by timestamp does not change the gross loss. -/
theorem grossLossOf_sort (trades : List Trade) :
    grossLossOf (sortByTimestamp trades) = grossLossOf trades := by
  have hp : List.Perm (sortByTimestamp trades) trades := List.perm_insertionSort _ _
  exact congrArg abs ((hp.filter _).map _).sum_eq

/-- C8.  In both engines the profit factor is positive infinity exactly
when the gross loss is 0 and the gross profit is positive; it is exactly
0 whenever the gross profit is 0; and otherwise (gross loss non-zero) it
is the finite quotient grossProfit / grossLoss. -/
theorem profitFactor_spec (trades : List Trade) (cap : ℚ) :
    (calculateProfitFactor trades = ProfitFactor.posInf
        ↔ grossLossOf trades = 0 ∧ 0 < grossProfitOf trades) ∧
    (grossProfitOf trades = 0 → calculateProfitFactor trades = ProfitFactor.fin 0) ∧
    (grossLossOf trades ≠ 0 →
        calculateProfitFactor trades
          = ProfitFactor.fin (grossProfitOf trades / grossLossOf trades)) ∧
    (PerformanceMetrics.profitFactor (calculatePerformanceMetrics trades cap)
          = ProfitFactor.posInf
        ↔ grossLossOf trades = 0 ∧ 0 < grossProfitOf trades) ∧
    (grossProfitOf trades = 0 →
        PerformanceMetrics.profitFactor (calculatePerformanceMetrics trades cap)
          = ProfitFactor.fin 0) ∧
    (grossLossOf trades ≠ 0 →
        PerformanceMetrics.profitFactor (calculatePerformanceMetrics trades cap)
          = ProfitFactor.fin (grossProfitOf trades / grossLossOf trades)) := by
  have habs : 0 ≤ grossLossOf trades := abs_nonneg _
  have hcp : calculateProfitFactor trades
      = if grossLossOf trades = 0 then
          (if 0 < grossProfitOf trades then ProfitFactor.posInf else ProfitFactor.fin 0)
        else ProfitFactor.fin (grossProfitOf trades / grossLossOf trades) := rfl
  have hpm : PerformanceMetrics.profitFactor (calculatePerformanceMetrics trades cap)
      = if grossLossOf trades = 0 then
          (if 0 < grossProfitOf trades then ProfitFactor.posInf else ProfitFactor.fin 0)
        else ProfitFactor.fin (grossProfitOf trades / grossLossOf trades) := by
    by_cases he : trades.isEmpty
    · have : trades = [] := List.isEmpty_iff.mp he
      subst this
      simp [calculatePerformanceMetrics, getEmptyMetrics, grossProfitOf, grossLossOf]
    · have hpf : PerformanceMetrics.profitFactor (calculatePerformanceMetrics trades cap)
          = if grossLossOf (sortByTimestamp trades) > 0 then
              ProfitFactor.fin
                (grossProfitOf (sortByTimestamp trades) / grossLossOf (sortByTimestamp trades))
            else if grossProfitOf (sortByTimestamp trades) > 0 then ProfitFactor.posInf
            else ProfitFactor.fin 0 := by
        simp only [calculatePerformanceMetrics, he, Bool.false_eq_true, if_false]
        rfl
      rw [hpf, grossProfitOf_sort, grossLossOf_sort]
      by_cases hgl : grossLossOf trades = 0
      · simp [hgl]
      · have hpos : 0 < grossLossOf trades := lt_of_le_of_ne habs (Ne.symm hgl)
        simp [hgl, hpos]
  rw [hcp, hpm]
  by_cases hgl : grossLossOf trades = 0
  · by_cases hgp : 0 < grossProfitOf trades
    · refine ⟨by simp [hgl, hgp], ?_, by simp [hgl], by simp [hgl, hgp], ?_, by simp [hgl]⟩
      all_goals intro h0; rw [h0] at hgp; exact absurd hgp (lt_irrefl 0)
    · simp [hgl, hgp]
  · simp [hgl]

/-- Witness for C8: a single winning trade gives positive infinity, and a
single losing trade gives profit factor 0 in the metrics bundle. -/
theorem profitFactor_witness :
    calculateProfitFactor [mkTrade 0 0 5 5 Outcome.win] = ProfitFactor.posInf ∧
    PerformanceMetrics.profitFactor (calculatePerformanceMetrics [lossTrade 0] 100)
      = ProfitFactor.fin 0 := by
  have hwl : (Outcome.loss = Outcome.win) = False :=
    eq_false (by decide : ¬ (Outcome.loss = Outcome.win))
  have hlw : (Outcome.win = Outcome.loss) = False :=
    eq_false (by decide : ¬ (Outcome.win = Outcome.loss))
  constructor
  · exact (profitFactor_spec [mkTrade 0 0 5 5 Outcome.win] 100).1.mpr
      (by norm_num [grossProfitOf, grossLossOf, mkTrade, List.filter_cons, List.filter_nil, hwl, hlw])
  · exact (profitFactor_spec [lossTrade 0] 100).2.2.2.2.1
      (by norm_num [grossProfitOf, lossTrade, mkTrade, List.filter_cons, List.filter_nil, hwl, hlw])

/-! ## C9: duration median (amended) -/

/-- C9 (amended).  On a non-empty even-length sample (length 2k, k ≥ 1)
the median is the element at index k of the ascending duration sort —
the upper-middle element, at least as large as the lower-middle element
at index k − 1 — with no averaging of the two middle elements. -/
theorem median_upper_middle (trades : List Trade) (k : ℕ) (hk : 1 ≤ k)
    (hlen : trades.length = 2 * k) :
    (calculateTradeDurationMetrics trades).median = (sortedDurations trades).getD k 0 ∧
    (sortedDurations trades).getD (k - 1) 0
      ≤ (calculateTradeDurationMetrics trades).median := by
  have hslen : (sortedDurations trades).length = 2 * k := by
    have hp : List.Perm (sortedDurations trades) (trades.map Trade.duration) :=
      List.perm_insertionSort _ _
    rw [hp.length_eq, List.length_map, hlen]
  have hne : trades.isEmpty = false := by
    cases trades with
    | nil => simp at hlen; omega
    | cons t ts => rfl
  have hmed : (calculateTradeDurationMetrics trades).median
      = (sortedDurations trades).getD ((sortedDurations trades).length / 2) 0 := by
    simp only [calculateTradeDurationMetrics, hne, Bool.false_eq_true, if_false]
  have hidx : (sortedDurations trades).length / 2 = k := by rw [hslen]; omega
  rw [hmed, hidx]
  refine ⟨rfl, ?_⟩
  have hk1 : k - 1 < (sortedDurations trades).length := by omega
  have hk2 : k < (sortedDurations trades).length := by omega
  rw [List.getD_eq_get _ _ hk1, List.getD_eq_get _ _ hk2]
  exact (List.sorted_insertionSort _ _).rel_get_of_le (by simp only [Fin.mk_le_mk]; omega)

/-- Witness for C9: the amended theorem applied to the concrete
even-length sample with durations [4, 2, 3, 1]. -/
theorem median_upper_middle_witness :
    (calculateTradeDurationMetrics exDurations4).median
      = (sortedDurations exDurations4).getD 2 0 ∧
    (sortedDurations exDurations4).getD 1 0
      ≤ (calculateTradeDurationMetrics exDurations4).median :=
  median_upper_middle exDurations4 2 (by norm_num) (by decide)

end Deriverse
